import Mathlib

/-!
Verification development for the smokeys-staff-clock geofence core.

The embedding covers:
* `src/lib/geo.ts` — `getCurrentPosition` (position acquisition with the
  one-shot low-accuracy retry on timeout) and `haversineDistance`;
* the geofence-gating portion of `requestLocation` in `src/app/page.tsx`;
* `formatDistance` in `src/lib/i18n.ts`.

JavaScript `number` values are modelled as real numbers (`ℝ`) for the
geodesic computations; `formatDistance` is modelled over `ℚ` so that its
rounding behaviour is executable.  `Math.atan2`, `Math.sin`, `Math.cos`,
`Math.sqrt` and `Math.PI` are modelled by their exact real counterparts.
-/

/-- `GeoPosition` from `src/lib/geo.ts`: a latitude/longitude pair. -/
structure GeoPosition where
  lat : ℝ
  lng : ℝ

/-- `toRad` from `src/lib/geo.ts`: `(deg * Math.PI) / 180`. -/
noncomputable def toRad (deg : ℝ) : ℝ :=
  deg * Real.pi / 180

/-- Model of the platform primitive `Math.atan2 y x` on exact reals
(the IEEE signed-zero distinctions collapse on `ℝ`). -/
noncomputable def atan2 (y x : ℝ) : ℝ :=
  if 0 < x then Real.arctan (y / x)
  else if x < 0 then
    (if 0 ≤ y then Real.arctan (y / x) + Real.pi else Real.arctan (y / x) - Real.pi)
  else if 0 < y then Real.pi / 2
  else if y < 0 then -(Real.pi / 2)
  else 0

/-- The intermediate `h` of `haversineDistance` in `src/lib/geo.ts`:
`sinLat * sinLat + Math.cos(toRad(a.lat)) * Math.cos(toRad(b.lat)) * sinLng * sinLng`
where `sinLat = Math.sin(dLat / 2)`, `sinLng = Math.sin(dLng / 2)`. -/
noncomputable def hav (a b : GeoPosition) : ℝ :=
  Real.sin (toRad (b.lat - a.lat) / 2) * Real.sin (toRad (b.lat - a.lat) / 2) +
    Real.cos (toRad a.lat) * Real.cos (toRad b.lat) *
      Real.sin (toRad (b.lng - a.lng) / 2) * Real.sin (toRad (b.lng - a.lng) / 2)

/-- `haversineDistance` from `src/lib/geo.ts`:
`R * 2 * Math.atan2(Math.sqrt(h), Math.sqrt(1 - h))` with `R = 6371`. -/
noncomputable def haversineDistance (a b : GeoPosition) : ℝ :=
  6371 * 2 * atan2 (Real.sqrt (hav a b)) (Real.sqrt (1 - hav a b))

/-- Valid geodetic bounds for a position, as stated by the spec. -/
def ValidPos (p : GeoPosition) : Prop :=
  -90 ≤ p.lat ∧ p.lat ≤ 90 ∧ -180 ≤ p.lng ∧ p.lng ≤ 180

/-- The spec's `h`:
`sin²(dLat/2) + cos(radians(a.lat)) * cos(radians(b.lat)) * sin²(dLng/2)`. -/
noncomputable def havSpec (a b : GeoPosition) : ℝ :=
  Real.sin (toRad (b.lat - a.lat) / 2) ^ 2 +
    Real.cos (toRad a.lat) * Real.cos (toRad b.lat) *
      Real.sin (toRad (b.lng - a.lng) / 2) ^ 2

/-- The spec's reference formula:
`distanceKm = 2 * R * atan2(sqrt(h), sqrt(1 - h))` with `R = 6371`. -/
noncomputable def haversineSpec (a b : GeoPosition) : ℝ :=
  2 * 6371 * atan2 (Real.sqrt (havSpec a b)) (Real.sqrt (1 - havSpec a b))

/-! ### Position acquisition (`getCurrentPosition` in `src/lib/geo.ts`) -/

/-- The options object of one `navigator.geolocation.getCurrentPosition` call:
`enableHighAccuracy`, `timeout` (ms), `maximumAge` (ms). -/
structure Profile where
  enableHighAccuracy : Bool
  timeoutMs : ℕ
  maximumAge : ℕ
deriving DecidableEq

/-- The platform error codes distinguished by `onError` in `src/lib/geo.ts`
(`PERMISSION_DENIED`, `POSITION_UNAVAILABLE`, `TIMEOUT`, and the `default`
branch for any other code). -/
inductive GeoErrorCode
  | permissionDenied
  | positionUnavailable
  | timeout
  | unknown
deriving DecidableEq

/-- What the platform reports for one location request: a position or an
error code. -/
inductive PlatformOutcome
  | success (p : GeoPosition)
  | failure (c : GeoErrorCode)

/-- How the promise of `getCurrentPosition` settles: resolved with a position
or rejected with an error message. -/
inductive AcqResult
  | ok (p : GeoPosition)
  | err (msg : String)

/-- The message chosen by `onError` in `src/lib/geo.ts` for each error code. -/
def errorMessage : GeoErrorCode → String
  | .permissionDenied =>
      "Location access denied. Please enable location services in your browser settings to check in."
  | .positionUnavailable =>
      "Location information is unavailable. Please try again."
  | .timeout =>
      "Location request timed out. Please try again."
  | .unknown =>
      "An unknown error occurred while getting location."

/-- Settling a platform outcome through the `(onSuccess, onError)` callback
pair of `src/lib/geo.ts`. -/
def finalize : PlatformOutcome → AcqResult
  | .success p => .ok p
  | .failure c => .err (errorMessage c)

/-- The first request's options in `src/lib/geo.ts`:
`enableHighAccuracy: true, timeout: 15000, maximumAge: 0`. -/
def firstProfile : Profile := ⟨true, 15000, 0⟩

/-- The retry options in `src/lib/geo.ts`:
`enableHighAccuracy: false, timeout: 15000, maximumAge: 60000`. -/
def retryProfile : Profile := ⟨false, 15000, 60000⟩

/-- `getCurrentPosition` from `src/lib/geo.ts`.  The ambient platform is
`supported` (whether `navigator.geolocation` exists) together with `respond`,
the platform's reply to a request issued with a given options object.  The
second component of the result lists the requests actually issued, in order:
the first request uses `firstProfile`; only a first-attempt `TIMEOUT` error
triggers the single retry with `retryProfile`, whose outcome goes straight to
the `(onSuccess, onError)` pair; any other first-attempt error goes to
`onError` directly. -/
def getCurrentPosition (supported : Bool) (respond : Profile → PlatformOutcome) :
    AcqResult × List Profile :=
  if supported then
    match respond firstProfile with
    | .success p => (.ok p, [firstProfile])
    | .failure c =>
      if c = .timeout then
        (finalize (respond retryProfile), [firstProfile, retryProfile])
      else
        (.err (errorMessage c), [firstProfile])
  else
    (.err "Geolocation is not supported by your browser.", [])

/-! ### Geofence gating (`requestLocation` in `src/app/page.tsx`) -/

/-- The settings row read in `requestLocation`:
`restaurant_lat: float|null`, `restaurant_lng: float|null`,
`radius_meters: integer|null` (JavaScript numbers modelled as `ℝ`). -/
structure Settings where
  restaurant_lat : Option ℝ
  restaurant_lng : Option ℝ
  radius_meters : Option ℝ

/-- JavaScript `x || d` for a nullable number `x`: `null` and `0` are falsy
and yield the default `d` (`NaN` has no counterpart on `ℝ`). -/
noncomputable def jsOr (x : Option ℝ) (d : ℝ) : ℝ :=
  match x with
  | none => d
  | some v => if v = 0 then d else v

/-- The radius used by `requestLocation`:
`(settings.radius_meters || 100) / 1000`. -/
noncomputable def effectiveRadiusKm (radius_meters : Option ℝ) : ℝ :=
  jsOr radius_meters 100 / 1000

/-- The app state `requestLocation` reaches after a successful acquisition:
`ready`, or `location_error` carrying the computed distance and radius that
parameterize the `distError` message. -/
inductive LocOutcome
  | ready
  | locationError (distKm radiusKm : ℝ)

/-- The geofence-gating tail of `requestLocation` in `src/app/page.tsx`,
after `getCurrentPosition` resolved with `pos` and the settings row was
fetched.  The guard `settings?.restaurant_lat && settings?.restaurant_lng`
is JavaScript truthiness: the geofence runs only when both coordinates are
non-null and nonzero; otherwise the state goes straight to `ready`.  Inside
the guard, `dist > rKm` blocks with the distance error, else `ready`. -/
noncomputable def requestLocationOutcome (pos : GeoPosition) (s : Settings) :
    LocOutcome :=
  match s.restaurant_lat, s.restaurant_lng with
  | some la, some ln =>
    if la ≠ 0 ∧ ln ≠ 0 then
      if haversineDistance pos ⟨la, ln⟩ > effectiveRadiusKm s.radius_meters then
        .locationError (haversineDistance pos ⟨la, ln⟩) (effectiveRadiusKm s.radius_meters)
      else
        .ready
    else
      .ready
  | _, _ => .ready

/-! ### Distance formatting (`formatDistance` in `src/lib/i18n.ts`) -/

/-- `Lang` from `src/lib/i18n.ts`. -/
inductive Lang
  | en
  | es
deriving DecidableEq

/-- JavaScript `x.toFixed(1)` for a non-negative number, modelled over `ℚ`:
round to the nearest tenth (ties up, as for non-negative arguments in JS)
and print one decimal digit. -/
def toFixed1 (x : ℚ) : String :=
  toString (round (x * 10) / 10 : ℤ) ++ "." ++ toString ((round (x * 10) : ℤ) % 10)

/-- `formatDistance` from `src/lib/i18n.ts`:
`km < 1` prints `Math.round(km * 1000)` metres with suffix `m`, otherwise
`km.toFixed(1)` with suffix `km`.  The `lang` argument is unused by the
source as well. -/
def formatDistance (km : ℚ) (lang : Lang) : String :=
  if km < 1 then toString (round (km * 1000) : ℤ) ++ "m"
  else toFixed1 km ++ "km"

/-! ### The evaluator's failure channel (claim C4) -/

/-- The result of the Geofence Evaluator as observed by its caller: a numeric
distance, or the `InvalidCoordinate` error the spec describes. -/
inductive EvalResult
  | val (d : ℝ)
  | invalidCoordinate

/-- The evaluator's observable behaviour in `src/lib/geo.ts`:
`haversineDistance` performs no coordinate-range validation and throws
nothing, so every input — in range or not — yields its numeric value and the
error branch is never taken. -/
noncomputable def haversineEval (a b : GeoPosition) : EvalResult :=
  .val (haversineDistance a b)

/-- A platform that reports `TIMEOUT` on every request. -/
def alwaysTimeout : Profile → PlatformOutcome := fun _ => .failure .timeout

/-- A platform that reports `PERMISSION_DENIED` on every request. -/
def alwaysDenied : Profile → PlatformOutcome := fun _ => .failure .permissionDenied

/-! ### Basic lemmas -/

lemma hav_eq_havSpec (a b : GeoPosition) : hav a b = havSpec a b := by
  unfold hav havSpec
  ring

lemma hav_comm (a b : GeoPosition) : hav a b = hav b a := by
  unfold hav toRad
  have h1 : (a.lat - b.lat) * Real.pi / 180 / 2 =
      -((b.lat - a.lat) * Real.pi / 180 / 2) := by ring
  have h2 : (a.lng - b.lng) * Real.pi / 180 / 2 =
      -((b.lng - a.lng) * Real.pi / 180 / 2) := by ring
  rw [h1, h2, Real.sin_neg, Real.sin_neg]
  ring

lemma hav_self (a : GeoPosition) : hav a a = 0 := by
  unfold hav toRad
  simp

lemma atan2_zero_one : atan2 0 1 = 0 := by
  unfold atan2
  rw [if_pos one_pos]
  simp

/-! ### Claim theorems -/

/-- C1: on a first-attempt `Timeout` failure, `getCurrentPosition` issues
exactly one retry, with the relaxed profile
`enableHighAccuracy: false, timeout: 15000, maximumAge: 60000`, and the
retry's outcome — success or any failure kind — is final; on any non-timeout
first-attempt failure no retry is issued and that failure is final. -/
theorem getCurrentPosition_retry_policy (respond : Profile → PlatformOutcome) :
    (respond firstProfile = .failure .timeout →
      (getCurrentPosition true respond).2 = [firstProfile, retryProfile] ∧
      (getCurrentPosition true respond).1 = finalize (respond retryProfile)) ∧
    (∀ c : GeoErrorCode, c ≠ .timeout → respond firstProfile = .failure c →
      (getCurrentPosition true respond).2 = [firstProfile] ∧
      (getCurrentPosition true respond).1 = .err (errorMessage c)) := by
  constructor
  · intro h
    simp [getCurrentPosition, h]
  · intro c hc h
    simp [getCurrentPosition, h, hc]

/-- Witness for C1: a platform that always times out produces exactly the
two requests and a final `Timeout` error; a platform that denies permission
on the first attempt produces a single request and the denial error. -/
theorem getCurrentPosition_retry_policy_witness :
    (getCurrentPosition true alwaysTimeout).2 = [firstProfile, retryProfile] ∧
    (getCurrentPosition true alwaysTimeout).1 = .err (errorMessage .timeout) ∧
    (getCurrentPosition true alwaysDenied).2 = [firstProfile] ∧
    (getCurrentPosition true alwaysDenied).1 = .err (errorMessage .permissionDenied) := by
  have h1 := (getCurrentPosition_retry_policy alwaysTimeout).1 rfl
  have h2 := (getCurrentPosition_retry_policy alwaysDenied).2 .permissionDenied (by decide) rfl
  exact ⟨h1.1, h1.2, h2.1, h2.2⟩

/-- C2: with a configured (non-null, nonzero) restaurant position and a
positive effective radius, the check-in flow proceeds to `ready` exactly when
the computed distance is at most the radius; at the exact boundary
`distanceKm = radiusKm` it proceeds, and strictly beyond it blocks with the
distance error carrying the computed distance and radius. -/
theorem geofence_boundary (pos : GeoPosition) (la ln : ℝ) (r : Option ℝ)
    (hla : la ≠ 0) (hln : ln ≠ 0) (hr : 0 < effectiveRadiusKm r) :
    (requestLocationOutcome pos ⟨some la, some ln, r⟩ = .ready ↔
      haversineDistance pos ⟨la, ln⟩ ≤ effectiveRadiusKm r) ∧
    (haversineDistance pos ⟨la, ln⟩ = effectiveRadiusKm r →
      requestLocationOutcome pos ⟨some la, some ln, r⟩ = .ready) ∧
    (effectiveRadiusKm r < haversineDistance pos ⟨la, ln⟩ →
      requestLocationOutcome pos ⟨some la, some ln, r⟩ =
        .locationError (haversineDistance pos ⟨la, ln⟩) (effectiveRadiusKm r)) := by
  have hcond : la ≠ 0 ∧ ln ≠ 0 := ⟨hla, hln⟩
  simp only [requestLocationOutcome, if_pos hcond]
  rcases le_or_lt (haversineDistance pos ⟨la, ln⟩) (effectiveRadiusKm r) with h | h
  · rw [if_neg (not_lt.mpr h)]
    exact ⟨⟨fun _ => h, fun _ => rfl⟩, fun _ => rfl, fun hgt => absurd hgt (not_lt.mpr h)⟩
  · rw [if_pos h]
    refine ⟨⟨fun heq => absurd heq (by simp), fun hle => absurd h (not_lt.mpr hle)⟩,
      fun heq => absurd (heq ▸ h) (lt_irrefl _), fun _ => rfl⟩

/-- Witness for C2: restaurant at `(1, 1)` with no stored radius gives an
effective radius of 0.1 km and the boundary characterization holds. -/
theorem geofence_boundary_witness :
    (1 : ℝ) ≠ 0 ∧ 0 < effectiveRadiusKm none ∧
    (requestLocationOutcome ⟨0, 0⟩ ⟨some 1, some 1, none⟩ = .ready ↔
      haversineDistance ⟨0, 0⟩ ⟨1, 1⟩ ≤ effectiveRadiusKm none) := by
  have h := geofence_boundary ⟨0, 0⟩ 1 1 none (by norm_num) (by norm_num)
    (by norm_num [effectiveRadiusKm, jsOr])
  exact ⟨by norm_num, by norm_num [effectiveRadiusKm, jsOr], h.1⟩

/-- C3: for positions within valid geodetic bounds, the source distance
function agrees with the spec's haversine reference formula
`2 * R * atan2(sqrt(h), sqrt(1 - h))`, `R = 6371`,
`h = sin²(dLat/2) + cos(lat_a)·cos(lat_b)·sin²(dLng/2)`. -/
theorem haversineDistance_eq_spec (a b : GeoPosition)
    (ha : ValidPos a) (hb : ValidPos b) :
    haversineDistance a b = haversineSpec a b := by
  unfold haversineDistance haversineSpec
  rw [hav_eq_havSpec]
  ring

/-- Witness for C3: the agreement at the concrete valid pair
`(0, 0)` and `(45, 90)`. -/
theorem haversineDistance_eq_spec_witness :
    ValidPos ⟨0, 0⟩ ∧ ValidPos ⟨45, 90⟩ ∧
    haversineDistance ⟨0, 0⟩ ⟨45, 90⟩ = haversineSpec ⟨0, 0⟩ ⟨45, 90⟩ :=
  ⟨by norm_num [ValidPos], by norm_num [ValidPos],
    haversineDistance_eq_spec ⟨0, 0⟩ ⟨45, 90⟩ (by norm_num [ValidPos])
      (by norm_num [ValidPos])⟩

/-- C5: when the stored settings have `restaurant_lat` and `restaurant_lng`
both null, the geofence check is skipped entirely and the flow proceeds
directly to `ready`, whatever the acquired position and stored radius. -/
theorem nullSettings_skips_geofence (pos : GeoPosition) (r : Option ℝ) :
    requestLocationOutcome pos ⟨none, none, r⟩ = .ready := by
  simp [requestLocationOutcome]

/-- Counterexample to C4 as stated: at latitude 200, outside the geodetic
range `[-90, 90]`, the distance computation still returns its numeric value
and does not signal `InvalidCoordinate` — the source has no defensive
range check. -/
theorem evaluator_no_invalid_check_counterexample :
    (90 : ℝ) < 200 ∧
    haversineEval ⟨200, 0⟩ ⟨0, 0⟩ = .val (haversineDistance ⟨200, 0⟩ ⟨0, 0⟩) ∧
    haversineEval ⟨200, 0⟩ ⟨0, 0⟩ ≠ .invalidCoordinate :=
  ⟨by norm_num, rfl, by simp [haversineEval]⟩

/-- C4 (amended): the evaluator performs no coordinate validation at all —
for every input, in range or not, the distance computation returns its
numeric value and never signals `InvalidCoordinate`. -/
theorem evaluator_never_fails (a b : GeoPosition) :
    haversineEval a b = .val (haversineDistance a b) ∧
    haversineEval a b ≠ .invalidCoordinate :=
  ⟨rfl, by simp [haversineEval]⟩

/-- Witness for C4 (amended), at the concrete pair `(1, 2)`, `(3, 4)`. -/
theorem evaluator_never_fails_witness :
    haversineEval ⟨1, 2⟩ ⟨3, 4⟩ = .val (haversineDistance ⟨1, 2⟩ ⟨3, 4⟩) ∧
    haversineEval ⟨1, 2⟩ ⟨3, 4⟩ ≠ .invalidCoordinate :=
  evaluator_never_fails ⟨1, 2⟩ ⟨3, 4⟩

/-- C6: for non-negative distances, `formatDistance` prints whole metres with
suffix `m` below 1 km and one decimal of kilometres with suffix `km` from
1 km up; in particular `0.1234 ↦ "123m"`, `1.0 ↦ "1.0km"`,
`0.0005 ↦ "1m"` and `2.34999 ↦ "2.3km"`. -/
theorem formatDistance_rule (lang : Lang) (km : ℚ) (h0 : 0 ≤ km) :
    (km < 1 → formatDistance km lang = toString (round (km * 1000) : ℤ) ++ "m") ∧
    (1 ≤ km → formatDistance km lang = toFixed1 km ++ "km") ∧
    formatDistance 0.1234 lang = "123m" ∧
    formatDistance 1.0 lang = "1.0km" ∧
    formatDistance 0.0005 lang = "1m" ∧
    formatDistance 2.34999 lang = "2.3km" := by
  refine ⟨fun h => by rw [formatDistance, if_pos h],
    fun h => by rw [formatDistance, if_neg (not_lt.mpr h)], ?_, ?_, ?_, ?_⟩
  · norm_num [formatDistance, toFixed1, round_eq]
    rfl
  · norm_num [formatDistance, toFixed1, round_eq]
    rfl
  · norm_num [formatDistance, toFixed1, round_eq]
    rfl
  · norm_num [formatDistance, toFixed1, round_eq]
    rfl

/-- Witness for C6: the four concrete formatted values. -/
theorem formatDistance_rule_witness :
    (0 : ℚ) ≤ 0 ∧
    formatDistance 0.1234 .en = "123m" ∧ formatDistance 1.0 .en = "1.0km" ∧
    formatDistance 0.0005 .en = "1m" ∧ formatDistance 2.34999 .en = "2.3km" := by
  have h := formatDistance_rule .en 0 le_rfl
  exact ⟨le_rfl, h.2.2.1, h.2.2.2.1, h.2.2.2.2.1, h.2.2.2.2.2⟩

/-- C7: for positions within valid geodetic bounds, the haversine distance is
symmetric. -/
theorem haversineDistance_symm (a b : GeoPosition)
    (ha : ValidPos a) (hb : ValidPos b) :
    haversineDistance a b = haversineDistance b a := by
  unfold haversineDistance
  rw [hav_comm]

/-- Witness for C7: symmetry at the concrete valid pair `(1, 2)`, `(3, 4)`. -/
theorem haversineDistance_symm_witness :
    ValidPos ⟨1, 2⟩ ∧ ValidPos ⟨3, 4⟩ ∧
    haversineDistance ⟨1, 2⟩ ⟨3, 4⟩ = haversineDistance ⟨3, 4⟩ ⟨1, 2⟩ :=
  ⟨by norm_num [ValidPos], by norm_num [ValidPos],
    haversineDistance_symm ⟨1, 2⟩ ⟨3, 4⟩ (by norm_num [ValidPos])
      (by norm_num [ValidPos])⟩

/-- C8: for a position within valid geodetic bounds, the haversine distance
from the position to itself is zero. -/
theorem haversineDistance_self_eq_zero (a : GeoPosition) (ha : ValidPos a) :
    haversineDistance a a = 0 := by
  unfold haversineDistance
  rw [hav_self, Real.sqrt_zero]
  norm_num [Real.sqrt_one, atan2_zero_one]

/-- Witness for C8: device and restaurant both at `(6.2442, -75.5812)` give
distance 0, which is within the 0.1 km radius. -/
theorem haversineDistance_self_eq_zero_witness :
    ValidPos ⟨6.2442, -75.5812⟩ ∧
    haversineDistance ⟨6.2442, -75.5812⟩ ⟨6.2442, -75.5812⟩ = 0 ∧
    haversineDistance ⟨6.2442, -75.5812⟩ ⟨6.2442, -75.5812⟩ ≤ 0.1 := by
  have h := haversineDistance_self_eq_zero ⟨6.2442, -75.5812⟩ (by norm_num [ValidPos])
  exact ⟨by norm_num [ValidPos], h, by rw [h]; norm_num⟩

/-- C9: the geofence bypass is decided by JavaScript truthiness, not a null
test — a stored `restaurant_lat` of 0 or `restaurant_lng` of 0 skips the
geofence check exactly as null settings do, for any acquired position. -/
theorem zero_coordinate_skips_geofence (pos : GeoPosition) (r : Option ℝ)
    (la ln : ℝ) :
    requestLocationOutcome pos ⟨some 0, some ln, r⟩ = .ready ∧
    requestLocationOutcome pos ⟨some la, some 0, r⟩ = .ready := by
  constructor
  · simp [requestLocationOutcome]
  · simp [requestLocationOutcome]

/-- C10: `radius_meters || 100` treats both null and 0 as unset, so the
effective radius is the 0.1 km default in either case — in particular it is
positive, so a stored radius of 0 cannot make the geofence always-out-of-range. -/
theorem default_radius_on_falsy (r : Option ℝ) (h : r = none ∨ r = some 0) :
    effectiveRadiusKm r = 0.1 ∧ 0 < effectiveRadiusKm r := by
  rcases h with h | h <;> subst h <;> norm_num [effectiveRadiusKm, jsOr]

/-- Witness for C10: a null stored radius yields the 0.1 km default. -/
theorem default_radius_on_falsy_witness :
    ((none : Option ℝ) = none ∨ (none : Option ℝ) = some 0) ∧
    effectiveRadiusKm none = 0.1 :=
  ⟨Or.inl rfl, (default_radius_on_falsy none (Or.inl rfl)).1⟩
